import Mathlib

/-!
# talkiepi: the session lifecycle of `client.go`

A shallow embedding of the methods of `client.go` (package `talkiepi`).  Each
method of `*Talkiepi` becomes a function from the client state to an
`Outcome`: the method returns, the process exits (`os.Exit`), or the
goroutine faults on a nil pointer.  Everything that the Go code obtains from a
collaborator (the result of the dial, the result of opening the audio stream,
the events delivered by the transport) is an explicit argument.  A dial that
succeeds delivers the Connected event to `OnConnect` before it returns, so the
event is part of the result of the dial.

What lies outside `client.go`:

* the `gumble` and `gumbleopenal` libraries: their objects are modelled by the
  fields that `client.go` reads, and their methods by the effect named in the
  interface description (disconnect, start/stop/destroy);
* the declaration of the `Talkiepi` struct and the helpers `LEDOn`/`LEDOff`:
  the struct is rebuilt from the fields that `client.go` uses, the two helpers
  are modelled from the specification.
-/

namespace TalkiepiSpec

/-! ## Collaborator objects -/

/-- The part of `gumble.Channel` that `client.go` reads: `Users` (only its
length is used) and the channels that `Find` can resolve by name. -/
structure Channel where
  Name : String
  Users : List String
  Children : List String
deriving DecidableEq, Repr

/-- The call `channel.Find(name)`: the named channel, or nil. -/
def Channel.Find (c : Channel) (name : String) : Option String :=
  if name ∈ c.Children then some name else none

/-- The part of `gumble.User` that `client.go` reads. -/
structure User where
  Name : String
  Channel : Channel
deriving DecidableEq, Repr

/-- The session handle `*gumble.Client`: the remote address printed by
`OnConnect`, the own user `Self`, whether `Disconnect` has been called on it,
and the channel moves requested through `Self.Move`. -/
structure GumbleClient where
  RemoteAddr : String
  Self : User
  disconnected : Bool
  moves : List String
deriving DecidableEq, Repr

/-- The call `client.Disconnect()`: the session is closed. -/
def GumbleClient.Disconnect (c : GumbleClient) : GumbleClient :=
  { c with disconnected := true }

/-- The call `client.Self.Move(channel)`: a move to the channel is requested. -/
def GumbleClient.Move (c : GumbleClient) (channel : String) : GumbleClient :=
  { c with moves := c.moves ++ [channel] }

/-- The audio stream object `*gumbleopenal.Stream`: whether it has been
destroyed and whether its capture source is running. -/
structure OpenalStream where
  destroyed : Bool
  sourceStarted : Bool
deriving DecidableEq, Repr

/-- The stream returned by a successful `gumbleopenal.New`. -/
def OpenalStream.New : OpenalStream :=
  { destroyed := false, sourceStarted := false }

/-- The call `stream.StartSource()`: captured audio is being sent. -/
def OpenalStream.StartSource (s : OpenalStream) : OpenalStream :=
  { s with sourceStarted := true }

/-- The call `stream.StopSource()`: captured audio is no longer sent. -/
def OpenalStream.StopSource (s : OpenalStream) : OpenalStream :=
  { s with sourceStarted := false }

/-- The call `stream.Destroy()`: the stream is torn down, its source stopped. -/
def OpenalStream.Destroy (s : OpenalStream) : OpenalStream :=
  { s with destroyed := true, sourceStarted := false }

/-! ## Events of the transport -/

/-- The event `gumble.ConnectEvent`. -/
structure ConnectEvent where
  Client : GumbleClient
  WelcomeMessage : Option String
deriving DecidableEq, Repr

/-- What `gumble.DialWithDialer` did: it returned an error, or it returned
without one, having delivered the Connected event to the listener first. -/
inductive DialResult where
  | failed (err : String)
  | connected (e : ConnectEvent)
deriving DecidableEq, Repr

/-- The values of `gumble.DisconnectType`. -/
inductive DisconnectType where
  | DisconnectError
  | DisconnectKicked
  | DisconnectBanned
  | DisconnectUser
deriving DecidableEq, Repr

/-- The event `gumble.DisconnectEvent`. -/
structure DisconnectEvent where
  Typ : DisconnectType
  String : String
deriving DecidableEq, Repr

/-- The values of `gumble.UserChangeType` that `OnUserChange` names; any other
value (another flag, or several flags at once) is `other`. -/
inductive UserChangeType where
  | UserChangeConnected
  | UserChangeDisconnected
  | UserChangeRegistered
  | UserChangeUnregistered
  | UserChangeName
  | UserChangeChannel
  | UserChangeAudio
  | UserChangePrioritySpeaker
  | UserChangeRecording
  | UserChangeStats
  | other (flags : Nat)
deriving DecidableEq, Repr

/-- The event `gumble.UserChangeEvent`. -/
structure UserChangeEvent where
  Typ : UserChangeType
  User : User
deriving DecidableEq, Repr

/-- The event `gumble.TextMessageEvent`; its `Sender` is a pointer. -/
structure TextMessageEvent where
  Sender : Option User
  Message : String
deriving DecidableEq, Repr

/-- The values of `gumble.PermissionDeniedType` that `OnPermissionDenied`
names; any other value is `other`. -/
inductive PermissionDeniedType where
  | PermissionDeniedOther
  | PermissionDeniedPermission
  | PermissionDeniedSuperUser
  | PermissionDeniedInvalidChannelName
  | PermissionDeniedTextTooLong
  | PermissionDeniedTemporaryChannel
  | PermissionDeniedMissingCertificate
  | PermissionDeniedInvalidUserName
  | PermissionDeniedChannelFull
  | PermissionDeniedNestingLimit
  | other (code : Nat)
deriving DecidableEq, Repr

/-- The event `gumble.PermissionDeniedEvent`. -/
structure PermissionDeniedEvent where
  Typ : PermissionDeniedType
  String : String
deriving DecidableEq, Repr

/-! ## Output of the process -/

/-- One formatted line written by `client.go`, kept with its arguments.  The
constructor names the format string:
`connectionFailed`: "Connection to %s failed (%s), attempting again in 10 seconds...";
`givingUp`: "Unable to connect, giving up";
`streamOpenError`: "Stream open error (%s)";
`connected`: "Connected to %s (%d)";
`welcome`: "Welcome message: %s" (the argument goes through `esc`);
`disconnected`: "Connection to %s disconnected, attempting again in 10 seconds...";
`disconnectedReason`: "Connection to %s disconnected (%s), attempting again in 10 seconds...";
`channelNotFound`: "Unable to find channel: %s";
`textMessage`: "Message from %s: %s" (the text goes through `esc` and `TrimSpace`);
`userChange`: "Change event for %s: %s (%d)";
`permissionDenied`: "Permission denied: %s". -/
inductive Line where
  | connectionFailed (address err : String)
  | givingUp
  | streamOpenError (err : String)
  | connected (remote : String) (attempts : Nat)
  | welcome (message : String)
  | disconnected (address : String)
  | disconnectedReason (address reason : String)
  | channelNotFound (name : String)
  | textMessage (sender message : String)
  | userChange (name info : String) (typ : UserChangeType)
  | permissionDenied (info : String)
deriving DecidableEq, Repr

/-! ## The client state -/

/-- The number of values of the Go type `uint`, 2^64. -/
def uintSize : Nat := 18446744073709551616

/-- The three indicator outputs that `client.go` passes to `LEDOn`/`LEDOff`. -/
inductive Pin where
  | onlineLED
  | participantsLED
  | transmitLED
deriving DecidableEq, Repr

/-- Modelled from the spec: the declaration of the struct `Talkiepi` is not
part of `client.go`.  The structure holds the receiver `b *Talkiepi` together
with the part of the process around it that the methods of `client.go` act on.

Fields of the struct, as `client.go` uses them: `Address`, `ChannelName`,
`ConnectAttempts`, `Client`, `Stream`, `IsConnected`, `IsTransmitting`, and the
three indicator pins.  Following the data model of the specification,
`ConnectAttempts` is a counter and each indicator is a boolean output, held
here as its level.  The counter is a Go `uint` of 64 bits: its values are the
numbers below `uintSize`, and `++` wraps from the largest of them to 0.

Process around it: the environment variable `ALSOFT_LOGLEVEL`, the lines
written to standard output and standard error, the retry goroutines started
by `ReConnect` that are still asleep (`timers`, each with its delay in
seconds), the delays of those that have woken up (`elapsed`), the number of
calls of `gumble.DialWithDialer` (`dials`), and the time the calling goroutine
has spent in `time.Sleep` (`blockedMs`, in milliseconds). -/
structure Talkiepi where
  Address : String
  ChannelName : String
  ConnectAttempts : Nat
  Client : Option GumbleClient
  Stream : Option OpenalStream
  IsConnected : Bool
  IsTransmitting : Bool
  onlineLED : Bool
  participantsLED : Bool
  transmitLED : Bool
  ALSOFT_LOGLEVEL : String
  stdout : List Line
  stderr : List Line
  timers : List Nat
  elapsed : List Nat
  dials : Nat
  blockedMs : Nat
deriving DecidableEq, Repr

/-- The zero-valued struct of a process that has just started, with its
configured address and channel name. -/
def fresh (address channelName : String) : Talkiepi :=
  { Address := address, ChannelName := channelName, ConnectAttempts := 0,
    Client := none, Stream := none, IsConnected := false, IsTransmitting := false,
    onlineLED := false, participantsLED := false, transmitLED := false,
    ALSOFT_LOGLEVEL := "", stdout := [], stderr := [], timers := [], elapsed := [],
    dials := 0, blockedMs := 0 }

/-- How a call of a method ends: it returns to its caller, the process exits
with a status (`os.Exit`), or a nil pointer is dereferenced.  The state is the
one at that moment. -/
inductive Outcome where
  | returned (b : Talkiepi)
  | exited (status : Nat) (b : Talkiepi)
  | nilDeref (b : Talkiepi)
deriving DecidableEq, Repr

/-- The state carried by an outcome. -/
def Outcome.state : Outcome → Talkiepi
  | .returned b => b
  | .exited _ b => b
  | .nilDeref b => b

/-- Sequencing: the next call runs only if the previous one returned. -/
def Outcome.bind (o : Outcome) (f : Talkiepi → Outcome) : Outcome :=
  match o with
  | .returned b => f b
  | .exited status b => .exited status b
  | .nilDeref b => .nilDeref b

/-- Whether the method returned to its caller. -/
def Outcome.isReturned : Outcome → Bool
  | .returned _ => true
  | _ => false

/-- Whether the call ended on a nil pointer. -/
def Outcome.faulted : Outcome → Bool
  | .nilDeref _ => true
  | _ => false

/-- The process has exited with status 1 right after writing "Unable to
connect, giving up" to standard error. -/
def Outcome.gaveUp : Outcome → Bool
  | .exited status b => decide (status = 1) && decide (b.stderr.getLast? = some Line.givingUp)
  | _ => false

/-- The call `fmt.Printf(...)`. -/
def printf (l : Line) (b : Talkiepi) : Talkiepi :=
  { b with stdout := b.stdout ++ [l] }

/-- The call `fmt.Fprintf(os.Stderr, ...)`. -/
def eprintf (l : Line) (b : Talkiepi) : Talkiepi :=
  { b with stderr := b.stderr ++ [l] }

/-- Modelled from the spec: the helper `LEDOn` is not part of `client.go`; the
specification describes it as the indicator controller's `setOn(name)`, which
drives the named output on and keeps no other state. -/
def LEDOn (LED : Pin) (b : Talkiepi) : Talkiepi :=
  match LED with
  | .onlineLED => { b with onlineLED := true }
  | .participantsLED => { b with participantsLED := true }
  | .transmitLED => { b with transmitLED := true }

/-- Modelled from the spec: the helper `LEDOff` is not part of `client.go`; the
specification describes it as the indicator controller's `setOff(name)`, which
drives the named output off and keeps no other state. -/
def LEDOff (LED : Pin) (b : Talkiepi) : Talkiepi :=
  match LED with
  | .onlineLED => { b with onlineLED := false }
  | .participantsLED => { b with participantsLED := false }
  | .transmitLED => { b with transmitLED := false }

/-! ## The methods of `client.go` -/

/-- The method `ReConnect` (lines 45-60).  The goroutine
`go func() { time.Sleep(10 * time.Second); b.Connect() }()` is recorded as a
pending timer of 10 seconds; the caller does not sleep. -/
def ReConnect (b : Talkiepi) : Outcome :=
  let b := match b.Client with
    | some c => { b with Client := some c.Disconnect }
    | none => b
  if b.ConnectAttempts < 5 then
    .returned { b with timers := b.timers ++ [10] }
  else
    .exited 1 (eprintf .givingUp b)

/-- The method `OpenStream` (lines 62-74); `newErr` is the error returned by
`gumbleopenal.New(b.Client)`, `none` when it is nil.  `New` reads the
configuration through the handle it is given, so a nil `b.Client` faults. -/
def OpenStream (newErr : Option String) (b : Talkiepi) : Outcome :=
  let b := if b.ALSOFT_LOGLEVEL = "" then { b with ALSOFT_LOGLEVEL := "0" } else b
  match b.Client with
  | none => .nilDeref b
  | some _ =>
    match newErr with
    | some err => .exited 1 (eprintf (.streamOpenError err) b)
    | none => .returned { b with Stream := some OpenalStream.New }

/-- The method `ResetStream` (lines 76-83). -/
def ResetStream (newErr : Option String) (b : Talkiepi) : Outcome :=
  match b.Stream with
  | none => .nilDeref b
  | some s =>
    let b := { b with Stream := some s.Destroy }
    let b := { b with blockedMs := b.blockedMs + 50 }
    OpenStream newErr b

/-- The method `TransmitStart` (lines 85-96). -/
def TransmitStart (b : Talkiepi) : Outcome :=
  if b.IsConnected = false then
    .returned b
  else
    let b := { b with IsTransmitting := true }
    let b := LEDOn .transmitLED b
    match b.Stream with
    | none => .nilDeref b
    | some s => .returned { b with Stream := some s.StartSource }

/-- The method `TransmitStop` (lines 98-108). -/
def TransmitStop (b : Talkiepi) : Outcome :=
  if b.IsConnected = false then
    .returned b
  else
    match b.Stream with
    | none => .nilDeref b
    | some s =>
      let b := { b with Stream := some s.StopSource }
      let b := LEDOff .transmitLED b
      .returned { b with IsTransmitting := false }

/-- The method `ChangeChannel` (lines 151-158). -/
def ChangeChannel (ChannelName : String) (b : Talkiepi) : Outcome :=
  match b.Client with
  | none => .nilDeref b
  | some c =>
    match c.Self.Channel.Find ChannelName with
    | some channel => .returned { b with Client := some (c.Move channel) }
    | none => .returned (printf (.channelNotFound ChannelName) b)

/-- The method `OnConnect` (lines 110-125). -/
def OnConnect (e : ConnectEvent) (b : Talkiepi) : Outcome :=
  let b := { b with Client := some e.Client }
  let b := { b with IsConnected := true }
  let b := LEDOn .onlineLED b
  let b := printf (.connected e.Client.RemoteAddr b.ConnectAttempts) b
  let b := match e.WelcomeMessage with
    | some message => printf (.welcome message) b
    | none => b
  if b.ChannelName ≠ "" then
    ChangeChannel b.ChannelName b
  else
    .returned b

/-- The first half of `Connect` (lines 33-36): the counter is raised, with the
wrap-around of its type, and `gumble.DialWithDialer` is called. -/
def Connect.dial (b : Talkiepi) : Talkiepi :=
  let b := { b with ConnectAttempts := (b.ConnectAttempts + 1) % uintSize }
  { b with dials := b.dials + 1 }

/-- The second half of `Connect` (lines 37-42), once the dial has returned
`dialErr` (`none` when the error is nil). -/
def Connect.resume (dialErr newErr : Option String) (b : Talkiepi) : Outcome :=
  match dialErr with
  | some err => ReConnect (printf (.connectionFailed b.Address err) b)
  | none => OpenStream newErr b

/-- The method `Connect` (lines 32-43).  A dial that succeeds has delivered
the Connected event before it returns, so `OnConnect` runs between the two
halves; the session handle returned by the dial is discarded by the code
(`_, err = ...`), the one set by `OnConnect` is what `OpenStream` uses. -/
def Connect (dial : DialResult) (newErr : Option String) (b : Talkiepi) : Outcome :=
  match dial with
  | .failed err => Connect.resume (some err) newErr (Connect.dial b)
  | .connected e => (OnConnect e (Connect.dial b)).bind (Connect.resume none newErr)

/-- The body of the goroutine started by `ReConnect` (lines 51-54): the oldest
pending timer runs out and `Connect` is called.  Without a pending timer
there is no such goroutine and nothing happens. -/
def retryGoroutine (dial : DialResult) (newErr : Option String) (b : Talkiepi) : Outcome :=
  match b.timers with
  | [] => .returned b
  | delay :: rest =>
    Connect dial newErr { b with timers := rest, elapsed := b.elapsed ++ [delay] }

/-- The method `OnDisconnect` up to its last statement (lines 128-145). -/
def OnDisconnect.body (e : DisconnectEvent) (b : Talkiepi) : Talkiepi :=
  let reason : String := match e.Typ with
    | .DisconnectError => "connection error"
    | _ => ""
  let b := { b with IsConnected := false }
  let b := LEDOff .onlineLED b
  let b := LEDOff .participantsLED b
  let b := LEDOff .transmitLED b
  if reason = "" then
    printf (.disconnected b.Address) b
  else
    printf (.disconnectedReason b.Address reason) b

/-- The method `OnDisconnect` (lines 127-149). -/
def OnDisconnect (e : DisconnectEvent) (b : Talkiepi) : Outcome :=
  ReConnect (OnDisconnect.body e b)

/-- The method `OnTextMessage` (lines 160-162). -/
def OnTextMessage (e : TextMessageEvent) (b : Talkiepi) : Outcome :=
  match e.Sender with
  | none => .nilDeref b
  | some sender => .returned (printf (.textMessage sender.Name e.Message) b)

/-- The label chosen by the switch of `OnUserChange` (lines 174-195). -/
def userChangeInfo : UserChangeType → String
  | .UserChangeConnected => "connected"
  | .UserChangeDisconnected => "disconnected"
  | .UserChangeRegistered => "registered"
  | .UserChangeUnregistered => "unregistered"
  | .UserChangeName => "changed name"
  | .UserChangeChannel => "changed channel"
  | .UserChangeAudio => "changed audio"
  | .UserChangePrioritySpeaker => "is priority speaker"
  | .UserChangeRecording => "changed recording status"
  | .UserChangeStats => "changed stats"
  | .other _ => ""

/-- The method `OnUserChange` (lines 164-199). -/
def OnUserChange (e : UserChangeEvent) (b : Talkiepi) : Outcome :=
  let b := if e.User.Channel.Users.length > 1 then
      LEDOn .participantsLED b
    else
      LEDOff .participantsLED b
  let info := userChangeInfo e.Typ
  .returned (printf (.userChange e.User.Name info e.Typ) b)

/-- The label chosen by the switch of `OnPermissionDenied` (lines 203-224). -/
def permissionDeniedInfo (e : PermissionDeniedEvent) : String :=
  match e.Typ with
  | .PermissionDeniedOther => e.String
  | .PermissionDeniedPermission => "insufficient permissions"
  | .PermissionDeniedSuperUser => "cannot modify SuperUser"
  | .PermissionDeniedInvalidChannelName => "invalid channel name"
  | .PermissionDeniedTextTooLong => "text too long"
  | .PermissionDeniedTemporaryChannel => "temporary channel"
  | .PermissionDeniedMissingCertificate => "missing certificate"
  | .PermissionDeniedInvalidUserName => "invalid user name"
  | .PermissionDeniedChannelFull => "channel full"
  | .PermissionDeniedNestingLimit => "nesting limit"
  | .other _ => ""

/-- The method `OnPermissionDenied` (lines 201-227). -/
def OnPermissionDenied (e : PermissionDeniedEvent) (b : Talkiepi) : Outcome :=
  .returned (printf (.permissionDenied (permissionDeniedInfo e)) b)

/-- The handlers with an empty body (lines 229-245): `OnChannelChange`,
`OnUserList`, `OnACL`, `OnBanList`, `OnContextActionChange`, `OnServerConfig`. -/
def OnIgnored (b : Talkiepi) : Outcome :=
  .returned b

/-! ## Runs of the client -/

/-- One call into the client, with what its collaborators answer. -/
inductive Op where
  | Connect (dial : DialResult) (newErr : Option String)
  | ConnectDial
  | ConnectResume (dialErr newErr : Option String)
  | retry (dial : DialResult) (newErr : Option String)
  | ReConnect
  | OpenStream (newErr : Option String)
  | ResetStream (newErr : Option String)
  | TransmitStart
  | TransmitStop
  | OnConnect (e : ConnectEvent)
  | OnDisconnect (e : DisconnectEvent)
  | OnTextMessage (e : TextMessageEvent)
  | OnUserChange (e : UserChangeEvent)
  | OnPermissionDenied (e : PermissionDeniedEvent)
  | OnIgnored
deriving DecidableEq, Repr

/-- The call named by an `Op`. -/
def exec (op : Op) (b : Talkiepi) : Outcome :=
  match op with
  | .Connect dial newErr => Connect dial newErr b
  | .ConnectDial => .returned (Connect.dial b)
  | .ConnectResume dialErr newErr => Connect.resume dialErr newErr b
  | .retry dial newErr => retryGoroutine dial newErr b
  | .ReConnect => ReConnect b
  | .OpenStream newErr => OpenStream newErr b
  | .ResetStream newErr => ResetStream newErr b
  | .TransmitStart => TransmitStart b
  | .TransmitStop => TransmitStop b
  | .OnConnect e => OnConnect e b
  | .OnDisconnect e => OnDisconnect e b
  | .OnTextMessage e => OnTextMessage e b
  | .OnUserChange e => OnUserChange e b
  | .OnPermissionDenied e => OnPermissionDenied e b
  | .OnIgnored => OnIgnored b

/-- A run: the calls are made one after the other for as long as the process
lives; after an exit or a fault nothing more happens. -/
def run (ops : List Op) (b : Talkiepi) : Outcome :=
  match ops with
  | [] => .returned b
  | op :: rest => (exec op b).bind (run rest)

/-- Whether the call runs the first line of `Connect`: a call of `Connect`
itself, or a retry goroutine whose timer was pending. -/
def callsConnect (op : Op) (b : Talkiepi) : Bool :=
  match op with
  | .Connect _ _ => true
  | .ConnectDial => true
  | .retry _ _ => !b.timers.isEmpty
  | _ => false

/-- The value of `ConnectAttempts` with which the call arrives at `ReConnect`,
when it does: a failed dial arrives with the count that `Connect` has just
raised, a Disconnected event with the count as it stands. -/
def reachesReConnect (op : Op) (b : Talkiepi) : Option Nat :=
  match op with
  | .Connect (.failed _) _ => some ((b.ConnectAttempts + 1) % uintSize)
  | .ConnectResume (some _) _ => some b.ConnectAttempts
  | .retry (.failed _) _ =>
    if b.timers.isEmpty then none else some ((b.ConnectAttempts + 1) % uintSize)
  | .ReConnect => some b.ConnectAttempts
  | .OnDisconnect _ => some b.ConnectAttempts
  | _ => none

/-- The number of dials the process has made, successful or not, when the
call arrives at `ReConnect`: a failed dial arrives with its own dial counted,
a Disconnected event with the dials made so far. -/
def dialsAtReConnect (op : Op) (b : Talkiepi) : Option Nat :=
  match op with
  | .Connect (.failed _) _ => some (b.dials + 1)
  | .ConnectResume (some _) _ => some b.dials
  | .retry (.failed _) _ => if b.timers.isEmpty then none else some (b.dials + 1)
  | .ReConnect => some b.dials
  | .OnDisconnect _ => some b.dials
  | _ => none

/-- The two counters of the client: `ConnectAttempts` and the number of dials
made. -/
def counters (b : Talkiepi) : Nat × Nat :=
  (b.ConnectAttempts, b.dials)

/-! ## Data for the scenarios -/

/-- A session in which the own user is alone in its channel. -/
def aloneClient : GumbleClient :=
  { RemoteAddr := "203.0.113.7:64738",
    Self := { Name := "talkiepi", Channel := { Name := "Lobby", Users := ["talkiepi"], Children := [] } },
    disconnected := false, moves := [] }

/-- The Connected event of that session. -/
def aloneConnected : ConnectEvent :=
  { Client := aloneClient, WelcomeMessage := none }

/-- A Disconnected event caused by a transport error. -/
def lostConnection : DisconnectEvent :=
  { Typ := .DisconnectError, String := "" }

/-- A change of a user who sits with one other user in another channel than
the own one. -/
def elsewhereChange : UserChangeEvent :=
  { Typ := .UserChangeName,
    User := { Name := "alice", Channel := { Name := "Workshop", Users := ["alice", "bob"], Children := [] } } }

/-! ## The reconnect policy -/

/-- C1: `ReConnect` ends the process if and only if `ConnectAttempts >= 5`, and
then with status 1 right after writing "Unable to connect, giving up" to
standard error; when `ConnectAttempts < 5` it returns, having started exactly
one goroutine that calls `Connect` after 10 seconds, and the caller itself has
not slept, dialled or counted an attempt. -/
theorem ReConnect_policy (b : Talkiepi) :
    ((∃ status b', ReConnect b = .exited status b') ↔ 5 ≤ b.ConnectAttempts) ∧
    ((ReConnect b).gaveUp = true ↔ 5 ≤ b.ConnectAttempts) ∧
    (∀ status b', ReConnect b = .exited status b' →
      status = 1 ∧ b'.stderr = b.stderr ++ [Line.givingUp] ∧ b'.timers = b.timers) ∧
    (b.ConnectAttempts < 5 →
      ∃ b', ReConnect b = .returned b' ∧ b'.timers = b.timers ++ [10] ∧
        b'.blockedMs = b.blockedMs ∧ b'.elapsed = b.elapsed ∧ b'.dials = b.dials ∧
        b'.ConnectAttempts = b.ConnectAttempts ∧ b'.stderr = b.stderr) := by
  by_cases h : b.ConnectAttempts < 5
  · have h5 : ¬ 5 ≤ b.ConnectAttempts := by omega
    cases hc : b.Client <;> simp [ReConnect, hc, h, h5, Outcome.gaveUp]
  · have h5 : 5 ≤ b.ConnectAttempts := by omega
    cases hc : b.Client <;>
      simp [ReConnect, hc, h, h5, Outcome.gaveUp, eprintf]

/-- C1, at a process that has made two attempts: it returns with one retry
pending. -/
theorem ReConnect_policy_witness :
    ({ fresh "server:64738" "" with ConnectAttempts := 2 } : Talkiepi).ConnectAttempts < 5 ∧
    ∃ b', ReConnect { fresh "server:64738" "" with ConnectAttempts := 2 } = .returned b' ∧
      b'.timers = [] ++ [10] ∧ b'.blockedMs = 0 ∧ b'.elapsed = [] ∧ b'.dials = 0 ∧
      b'.ConnectAttempts = 2 ∧ b'.stderr = [] :=
  ⟨by decide,
   (ReConnect_policy { fresh "server:64738" "" with ConnectAttempts := 2 }).2.2.2 (by decide)⟩

/-- C3: a fresh process whose every dial fails.  The call of `Connect` made by
`Init` and the next three retries each return with exactly one retry pending,
10 seconds away; the fifth failed `Connect` ends the process with status 1 after
writing "Unable to connect, giving up".  By then 5 dials have been made and 4
waits of 10 seconds have run out. -/
theorem five_failed_dials (address channelName e1 e2 e3 e4 e5 : String)
    (n1 n2 n3 n4 n5 : Option String) :
    ∃ b1 b2 b3 b4 b5,
      Connect (.failed e1) n1 (fresh address channelName) = .returned b1 ∧
      (b1.timers = [10] ∧ b1.elapsed = [] ∧ b1.dials = 1 ∧ b1.stderr = []) ∧
      retryGoroutine (.failed e2) n2 b1 = .returned b2 ∧
      (b2.timers = [10] ∧ b2.elapsed = [10] ∧ b2.dials = 2 ∧ b2.stderr = []) ∧
      retryGoroutine (.failed e3) n3 b2 = .returned b3 ∧
      (b3.timers = [10] ∧ b3.elapsed = [10, 10] ∧ b3.dials = 3 ∧ b3.stderr = []) ∧
      retryGoroutine (.failed e4) n4 b3 = .returned b4 ∧
      (b4.timers = [10] ∧ b4.elapsed = [10, 10, 10] ∧ b4.dials = 4 ∧ b4.stderr = []) ∧
      retryGoroutine (.failed e5) n5 b4 = .exited 1 b5 ∧
      (b5.timers = [] ∧ b5.elapsed = [10, 10, 10, 10] ∧ b5.dials = 5 ∧
        b5.stderr = [Line.givingUp] ∧ b5.ConnectAttempts = 5 ∧ b5.blockedMs = 0) ∧
      run [.Connect (.failed e1) n1, .retry (.failed e2) n2, .retry (.failed e3) n3,
           .retry (.failed e4) n4, .retry (.failed e5) n5] (fresh address channelName)
        = .exited 1 b5 :=
  ⟨_, _, _, _, _, rfl, ⟨rfl, rfl, rfl, rfl⟩, rfl, ⟨rfl, rfl, rfl, rfl⟩,
    rfl, ⟨rfl, rfl, rfl, rfl⟩, rfl, ⟨rfl, rfl, rfl, rfl⟩,
    rfl, ⟨rfl, rfl, rfl, rfl, rfl, rfl⟩, rfl⟩

/-! ## The Disconnected event -/

/-- C6: while `ConnectAttempts < 5`, `OnDisconnect` returns for every event
type, with the online, participants and transmitting indicators off and
`IsConnected` false whatever they were before; its last statement is the one
call of `ReConnect`, which leaves exactly one more retry pending. -/
theorem OnDisconnect_clears (e : DisconnectEvent) (b : Talkiepi)
    (h : b.ConnectAttempts < 5) :
    OnDisconnect e b = ReConnect (OnDisconnect.body e b) ∧
    (OnDisconnect.body e b).timers = b.timers ∧
    ∃ b', OnDisconnect e b = .returned b' ∧
      b'.onlineLED = false ∧ b'.participantsLED = false ∧ b'.transmitLED = false ∧
      b'.IsConnected = false ∧ b'.timers = b.timers ++ [10] := by
  refine ⟨rfl, ?_, ?_⟩
  · cases ht : e.Typ <;> simp [OnDisconnect.body, ht, LEDOff, printf]
  · cases ht : e.Typ <;> cases hc : b.Client <;>
      simp [OnDisconnect, OnDisconnect.body, ReConnect, ht, hc, h, LEDOff, printf]

/-- C6, at a connected, transmitting client with all three indicators on. -/
theorem OnDisconnect_clears_witness :
    ({ fresh "server:64738" "" with
        ConnectAttempts := 1, IsConnected := true, IsTransmitting := true,
        onlineLED := true, participantsLED := true, transmitLED := true } : Talkiepi).ConnectAttempts < 5 ∧
    ∃ b', OnDisconnect { Typ := .DisconnectError, String := "" }
        { fresh "server:64738" "" with
          ConnectAttempts := 1, IsConnected := true, IsTransmitting := true,
          onlineLED := true, participantsLED := true, transmitLED := true } = .returned b' ∧
      b'.onlineLED = false ∧ b'.participantsLED = false ∧ b'.transmitLED = false ∧
      b'.IsConnected = false ∧ b'.timers = [] ++ [10] :=
  ⟨by decide,
   (OnDisconnect_clears { Typ := .DisconnectError, String := "" }
      { fresh "server:64738" "" with
        ConnectAttempts := 1, IsConnected := true, IsTransmitting := true,
        onlineLED := true, participantsLED := true, transmitLED := true } (by decide)).2.2⟩

/-! ## The transmit gate -/

theorem bind_counters (o : Outcome) (f : Talkiepi → Outcome)
    (hf : ∀ b, counters (f b).state = counters b) :
    counters (o.bind f).state = counters o.state := by
  cases o with
  | returned b => exact hf b
  | exited status b => rfl
  | nilDeref b => rfl

theorem ReConnect_counters (b : Talkiepi) : counters (ReConnect b).state = counters b := by
  by_cases h : b.ConnectAttempts < 5 <;> cases hc : b.Client <;>
    simp [ReConnect, hc, h, Outcome.state, eprintf, counters]

theorem OpenStream_counters (newErr : Option String) (b : Talkiepi) :
    counters (OpenStream newErr b).state = counters b := by
  by_cases hl : b.ALSOFT_LOGLEVEL = "" <;> cases hc : b.Client <;> cases newErr <;>
    simp [OpenStream, hl, hc, Outcome.state, eprintf, counters]

theorem resume_counters (dialErr newErr : Option String) (b : Talkiepi) :
    counters (Connect.resume dialErr newErr b).state = counters b := by
  cases dialErr with
  | none => simp only [Connect.resume, OpenStream_counters]
  | some err => simp only [Connect.resume, ReConnect_counters]; rfl

theorem ChangeChannel_counters (name : String) (b : Talkiepi) :
    counters (ChangeChannel name b).state = counters b := by
  unfold ChangeChannel
  cases b.Client with
  | none => rfl
  | some c => cases hf : c.Self.Channel.Find name <;> simp [hf, Outcome.state, printf, counters]

theorem OnConnect_counters (e : ConnectEvent) (b : Talkiepi) :
    counters (OnConnect e b).state = counters b := by
  unfold OnConnect
  cases e.WelcomeMessage <;> simp only [] <;> split <;>
    first
      | (rw [ChangeChannel_counters]; simp [printf, LEDOn, counters])
      | simp [Outcome.state, printf, LEDOn, counters]

theorem Connect_counters (dial : DialResult) (newErr : Option String) (b : Talkiepi) :
    counters (Connect dial newErr b).state
      = ((b.ConnectAttempts + 1) % uintSize, b.dials + 1) := by
  cases dial with
  | failed err => simp only [Connect, resume_counters]; rfl
  | connected e =>
    simp only [Connect]
    rw [bind_counters _ _ (resume_counters none newErr), OnConnect_counters]
    rfl

theorem exec_counters (op : Op) (b : Talkiepi) :
    counters (exec op b).state =
      if callsConnect op b = true then ((b.ConnectAttempts + 1) % uintSize, b.dials + 1)
      else counters b := by
  cases op with
  | Connect d n => simp [exec, callsConnect, Connect_counters]
  | ConnectDial => simp [exec, callsConnect, Connect.dial, Outcome.state, counters]
  | ConnectResume d n => simp [exec, callsConnect, resume_counters]
  | retry d n =>
    cases ht : b.timers with
    | nil => simp [exec, callsConnect, retryGoroutine, ht, Outcome.state]
    | cons delay pending => simp [exec, callsConnect, retryGoroutine, ht, Connect_counters]
  | ReConnect => simp [exec, callsConnect, ReConnect_counters]
  | OpenStream n => simp [exec, callsConnect, OpenStream_counters]
  | ResetStream n =>
    cases hs : b.Stream with
    | none => simp [exec, callsConnect, ResetStream, hs, Outcome.state]
    | some stream =>
      simp [exec, callsConnect, ResetStream, hs, OpenStream_counters]
      simp [counters]
  | TransmitStart =>
    cases hc : b.IsConnected <;> cases hs : b.Stream <;>
      simp [exec, callsConnect, TransmitStart, hc, hs, LEDOn, Outcome.state, counters]
  | TransmitStop =>
    cases hc : b.IsConnected <;> cases hs : b.Stream <;>
      simp [exec, callsConnect, TransmitStop, hc, hs, LEDOff, Outcome.state, counters]
  | OnConnect e => simp [exec, callsConnect, OnConnect_counters]
  | OnDisconnect e =>
    have hb : counters (OnDisconnect.body e b) = counters b := by
      cases ht : e.Typ <;> simp [OnDisconnect.body, ht, LEDOff, printf, counters]
    simp [exec, callsConnect, OnDisconnect, ReConnect_counters, hb]
  | OnTextMessage e =>
    cases hs : e.Sender <;>
      simp [exec, callsConnect, OnTextMessage, hs, printf, Outcome.state, counters]
  | OnUserChange e =>
    simp only [exec, callsConnect, OnUserChange]
    split <;> simp [printf, LEDOn, LEDOff, Outcome.state, counters]
  | OnPermissionDenied e =>
    simp [exec, callsConnect, OnPermissionDenied, printf, Outcome.state, counters]
  | OnIgnored => simp [exec, callsConnect, OnIgnored, Outcome.state]

theorem exec_attempts (op : Op) (b : Talkiepi) :
    (exec op b).state.ConnectAttempts =
      if callsConnect op b = true then (b.ConnectAttempts + 1) % uintSize
      else b.ConnectAttempts := by
  have h := congrArg Prod.fst (exec_counters op b)
  by_cases hc : callsConnect op b = true
  · simpa [hc, counters] using h
  · simpa [hc, counters] using h

theorem exec_dials (op : Op) (b : Talkiepi) :
    (exec op b).state.dials = if callsConnect op b = true then b.dials + 1 else b.dials := by
  have h := congrArg Prod.snd (exec_counters op b)
  by_cases hc : callsConnect op b = true
  · simpa [hc, counters] using h
  · simpa [hc, counters] using h

theorem exec_attempts_bounds (op : Op) (b : Talkiepi)
    (h : b.ConnectAttempts + 1 < uintSize) :
    b.ConnectAttempts ≤ (exec op b).state.ConnectAttempts ∧
    (exec op b).state.ConnectAttempts ≤ b.ConnectAttempts + 1 := by
  rw [exec_attempts]
  by_cases hc : callsConnect op b = true
  · simp only [hc, if_true]
    rw [Nat.mod_eq_of_lt h]
    omega
  · simp only [hc]
    simp

theorem run_attempts_bounds (ops : List Op) : ∀ b : Talkiepi,
    b.ConnectAttempts + ops.length < uintSize →
    b.ConnectAttempts ≤ (run ops b).state.ConnectAttempts ∧
    (run ops b).state.ConnectAttempts ≤ b.ConnectAttempts + ops.length := by
  induction ops with
  | nil => intro b _; simp [run, Outcome.state]
  | cons op rest ih =>
    intro b hb
    simp only [List.length_cons] at hb
    have hstep := exec_attempts_bounds op b (by omega)
    cases hx : exec op b with
    | returned b1 =>
      simp only [hx, Outcome.state] at hstep
      have := ih b1 (by omega)
      simp only [run, hx, Outcome.bind, List.length_cons]
      omega
    | exited status b1 =>
      simp only [hx, Outcome.state] at hstep
      simp only [run, hx, Outcome.bind, Outcome.state, List.length_cons]
      omega
    | nilDeref b1 =>
      simp only [hx, Outcome.state] at hstep
      simp only [run, hx, Outcome.bind, Outcome.state, List.length_cons]
      omega

theorem run_attempts_eq_dials (ops : List Op) : ∀ b : Talkiepi,
    b.ConnectAttempts = b.dials % uintSize →
    (run ops b).state.ConnectAttempts = (run ops b).state.dials % uintSize := by
  induction ops with
  | nil => intro b hb; simpa [run, Outcome.state] using hb
  | cons op rest ih =>
    intro b hb
    have hstep : (exec op b).state.ConnectAttempts = (exec op b).state.dials % uintSize := by
      rw [exec_attempts, exec_dials]
      by_cases hc : callsConnect op b = true
      · simp only [hc, if_true]
        rw [hb]
        simp only [uintSize]
        omega
      · simpa [hc] using hb
    cases hx : exec op b with
    | returned b1 =>
      simp only [hx, Outcome.state] at hstep
      simpa only [run, hx, Outcome.bind] using ih b1 hstep
    | exited status b1 =>
      simp only [hx, Outcome.state] at hstep
      simpa only [run, hx, Outcome.bind, Outcome.state] using hstep
    | nilDeref b1 =>
      simp only [hx, Outcome.state] at hstep
      simpa only [run, hx, Outcome.bind, Outcome.state] using hstep

/-- C9, as stated, fails at the largest value of the counter: a client whose
`ConnectAttempts` is 2^64 - 1 calls `Connect`, the dial fails, and the call
returns with `ConnectAttempts` equal to 0 and a retry pending. -/
theorem attempts_wrap_at_largest :
    ({ fresh "server:64738" "" with ConnectAttempts := 18446744073709551615 }
        : Talkiepi).ConnectAttempts < uintSize ∧
    (Connect (.failed "refused") none
        { fresh "server:64738" "" with ConnectAttempts := 18446744073709551615 }).isReturned
      = true ∧
    (Connect (.failed "refused") none
        { fresh "server:64738" "" with ConnectAttempts := 18446744073709551615 }).state.ConnectAttempts
      = 0 ∧
    (Connect (.failed "refused") none
        { fresh "server:64738" "" with ConnectAttempts := 18446744073709551615 }).state.timers
      = [10] := by
  decide

/-- C9, amended: `ConnectAttempts` is never reset by the client.  Every call
leaves it where it was, except a call that runs the first line of `Connect`,
which raises it by one within its type.  So below the largest value of the
type no call decreases it, a run of calls that cannot carry it to that value
does not decrease it, and `OnConnect` leaves it unchanged. -/
theorem attempts_monotonic :
    (∀ (op : Op) (b : Talkiepi), (exec op b).state.ConnectAttempts =
      if callsConnect op b = true then (b.ConnectAttempts + 1) % uintSize
      else b.ConnectAttempts) ∧
    (∀ (op : Op) (b : Talkiepi), b.ConnectAttempts + 1 < uintSize →
      b.ConnectAttempts ≤ (exec op b).state.ConnectAttempts) ∧
    (∀ (ops : List Op) (b : Talkiepi), b.ConnectAttempts + ops.length < uintSize →
      b.ConnectAttempts ≤ (run ops b).state.ConnectAttempts) ∧
    (∀ (e : ConnectEvent) (b : Talkiepi),
      (OnConnect e b).state.ConnectAttempts = b.ConnectAttempts) :=
  ⟨exec_attempts, fun op b h => (exec_attempts_bounds op b h).1,
   fun ops b h => (run_attempts_bounds ops b h).1,
   fun e b => congrArg Prod.fst (OnConnect_counters e b)⟩

/-- C9 amended, at a client that has made three attempts and goes through a
successful dial, a Disconnected event and a failed retry. -/
theorem attempts_monotonic_witness :
    ({ fresh "server:64738" "" with ConnectAttempts := 3, dials := 3 } : Talkiepi).ConnectAttempts
        + [Op.Connect (.connected aloneConnected) none, .OnDisconnect lostConnection,
            .retry (.failed "refused") none].length < uintSize ∧
    ({ fresh "server:64738" "" with ConnectAttempts := 3, dials := 3 } : Talkiepi).ConnectAttempts
      ≤ (run [.Connect (.connected aloneConnected) none, .OnDisconnect lostConnection,
            .retry (.failed "refused") none]
          { fresh "server:64738" "" with ConnectAttempts := 3, dials := 3 }).state.ConnectAttempts :=
  ⟨by decide,
   attempts_monotonic.2.2.1
     [.Connect (.connected aloneConnected) none, .OnDisconnect lostConnection,
       .retry (.failed "refused") none]
     { fresh "server:64738" "" with ConnectAttempts := 3, dials := 3 } (by decide)⟩

/-! ## Giving up -/

theorem bind_gaveUp (o : Outcome) (f : Talkiepi → Outcome)
    (ho : o.gaveUp = false) (hf : ∀ b, (f b).gaveUp = false) :
    (o.bind f).gaveUp = false := by
  cases o with
  | returned b => exact hf b
  | exited status b => exact ho
  | nilDeref b => rfl

theorem ReConnect_gaveUp (b : Talkiepi) :
    (ReConnect b).gaveUp = true ↔ 5 ≤ b.ConnectAttempts := by
  by_cases h : b.ConnectAttempts < 5
  · have h5 : ¬ 5 ≤ b.ConnectAttempts := by omega
    cases hc : b.Client <;> simp [ReConnect, hc, h, h5, Outcome.gaveUp]
  · have h5 : 5 ≤ b.ConnectAttempts := by omega
    cases hc : b.Client <;> simp [ReConnect, hc, h, h5, Outcome.gaveUp, eprintf]

theorem OpenStream_gaveUp (newErr : Option String) (b : Talkiepi) :
    (OpenStream newErr b).gaveUp = false := by
  by_cases hl : b.ALSOFT_LOGLEVEL = "" <;> cases hc : b.Client <;> cases newErr <;>
    simp [OpenStream, hl, hc, Outcome.gaveUp, eprintf]

theorem ChangeChannel_gaveUp (name : String) (b : Talkiepi) :
    (ChangeChannel name b).gaveUp = false := by
  unfold ChangeChannel
  cases b.Client with
  | none => rfl
  | some c => cases hf : c.Self.Channel.Find name <;> simp [hf, Outcome.gaveUp]

theorem OnConnect_gaveUp (e : ConnectEvent) (b : Talkiepi) :
    (OnConnect e b).gaveUp = false := by
  unfold OnConnect
  cases e.WelcomeMessage <;> simp only [] <;> split <;>
    first
      | exact ChangeChannel_gaveUp _ _
      | simp [Outcome.gaveUp]

theorem Connect_gaveUp (dial : DialResult) (newErr : Option String) (b : Talkiepi) :
    (Connect dial newErr b).gaveUp = true ↔
      ∃ err, dial = .failed err ∧ 5 ≤ (b.ConnectAttempts + 1) % uintSize := by
  cases dial with
  | failed err => simp [Connect, Connect.resume, Connect.dial, ReConnect_gaveUp, printf]
  | connected e =>
    have h : (Connect (.connected e) newErr b).gaveUp = false :=
      bind_gaveUp _ _ (OnConnect_gaveUp e _) (fun b1 => OpenStream_gaveUp newErr b1)
    simp [h]

theorem exec_gaveUp (op : Op) (b : Talkiepi) :
    (exec op b).gaveUp = true ↔ ∃ n, reachesReConnect op b = some n ∧ 5 ≤ n := by
  cases op with
  | Connect d n => cases d <;> simp [exec, reachesReConnect, Connect_gaveUp]
  | ConnectDial => simp [exec, reachesReConnect, Outcome.gaveUp]
  | ConnectResume d n =>
    cases d <;>
      simp [exec, reachesReConnect, Connect.resume, OpenStream_gaveUp, ReConnect_gaveUp, printf]
  | retry d n =>
    cases ht : b.timers with
    | nil => cases d <;> simp [exec, reachesReConnect, retryGoroutine, ht, Outcome.gaveUp]
    | cons delay pending =>
      cases d <;> simp [exec, reachesReConnect, retryGoroutine, ht, Connect_gaveUp]
  | ReConnect => simp [exec, reachesReConnect, ReConnect_gaveUp]
  | OpenStream n => simp [exec, reachesReConnect, OpenStream_gaveUp]
  | ResetStream n =>
    cases hs : b.Stream with
    | none => simp [exec, reachesReConnect, ResetStream, hs, Outcome.gaveUp]
    | some stream => simp [exec, reachesReConnect, ResetStream, hs, OpenStream_gaveUp]
  | TransmitStart =>
    cases hc : b.IsConnected <;> cases hs : b.Stream <;>
      simp [exec, reachesReConnect, TransmitStart, hc, hs, LEDOn, Outcome.gaveUp]
  | TransmitStop =>
    cases hc : b.IsConnected <;> cases hs : b.Stream <;>
      simp [exec, reachesReConnect, TransmitStop, hc, hs, LEDOff, Outcome.gaveUp]
  | OnConnect e => simp [exec, reachesReConnect, OnConnect_gaveUp]
  | OnDisconnect e =>
    cases ht : e.Typ <;>
      simp [exec, reachesReConnect, OnDisconnect, ReConnect_gaveUp, OnDisconnect.body, ht,
        LEDOff, printf]
  | OnTextMessage e =>
    cases hs : e.Sender <;> simp [exec, reachesReConnect, OnTextMessage, hs, Outcome.gaveUp]
  | OnUserChange e => simp [exec, reachesReConnect, OnUserChange, Outcome.gaveUp]
  | OnPermissionDenied e => simp [exec, reachesReConnect, OnPermissionDenied, Outcome.gaveUp]
  | OnIgnored => simp [exec, reachesReConnect, OnIgnored, Outcome.gaveUp]

theorem run_gaveUp (ops : List Op) : ∀ b : Talkiepi,
    ((run ops b).gaveUp = true ↔
      ∃ pre op post b' n, ops = pre ++ op :: post ∧ run pre b = .returned b' ∧
        reachesReConnect op b' = some n ∧ 5 ≤ n) := by
  induction ops with
  | nil => intro b; simp [run, Outcome.gaveUp]
  | cons op rest ih =>
    intro b
    constructor
    · intro h
      cases hx : exec op b with
      | returned b1 =>
        simp only [run, hx, Outcome.bind] at h
        obtain ⟨pre, op', post, b', n, hops, hrun, hr, hn⟩ := (ih b1).mp h
        exact ⟨op :: pre, op', post, b', n, by simp [hops],
          by simp [run, hx, Outcome.bind, hrun], hr, hn⟩
      | exited status b1 =>
        simp only [run, hx, Outcome.bind] at h
        obtain ⟨n, hr, hn⟩ := (exec_gaveUp op b).mp (by rw [hx]; exact h)
        exact ⟨[], op, rest, b, n, rfl, rfl, hr, hn⟩
      | nilDeref b1 => simp [run, hx, Outcome.bind, Outcome.gaveUp] at h
    · rintro ⟨pre, op', post, b', n, hops, hrun, hr, hn⟩
      cases pre with
      | nil =>
        simp only [List.nil_append, List.cons.injEq] at hops
        obtain ⟨rfl, rfl⟩ := hops
        simp only [run, Outcome.returned.injEq] at hrun
        subst hrun
        have hg := (exec_gaveUp op b).mpr ⟨n, hr, hn⟩
        cases hx : exec op b with
        | returned b1 => rw [hx] at hg; simp [Outcome.gaveUp] at hg
        | exited status b1 => rw [hx] at hg; simpa [run, hx, Outcome.bind] using hg
        | nilDeref b1 => rw [hx] at hg; simp [Outcome.gaveUp] at hg
      | cons p pre' =>
        simp only [List.cons_append, List.cons.injEq] at hops
        obtain ⟨rfl, rfl⟩ := hops
        cases hx : exec op b with
        | returned b1 =>
          simp only [run, hx, Outcome.bind] at hrun ⊢
          exact (ih b1).mpr ⟨pre', op', post, b', n, rfl, hrun, hr, hn⟩
        | exited status b1 => simp [run, hx, Outcome.bind] at hrun
        | nilDeref b1 => simp [run, hx, Outcome.bind] at hrun

theorem reaches_of_dials (op : Op) (b : Talkiepi)
    (h : b.ConnectAttempts = b.dials % uintSize) :
    reachesReConnect op b = (dialsAtReConnect op b).map (fun n => n % uintSize) := by
  have h1 : (b.dials % uintSize + 1) % uintSize = (b.dials + 1) % uintSize := by
    simp only [uintSize]
    omega
  cases op with
  | Connect d n => cases d <;> simp [reachesReConnect, dialsAtReConnect, h, h1]
  | ConnectResume d n => cases d <;> simp [reachesReConnect, dialsAtReConnect, h]
  | retry d n =>
    cases d <;> cases ht : b.timers <;> simp [reachesReConnect, dialsAtReConnect, h, h1, ht]
  | ReConnect => simp [reachesReConnect, dialsAtReConnect, h]
  | OnDisconnect e => simp [reachesReConnect, dialsAtReConnect, h]
  | ConnectDial => rfl
  | OpenStream n => rfl
  | ResetStream n => rfl
  | TransmitStart => rfl
  | TransmitStop => rfl
  | OnConnect e => rfl
  | OnTextMessage e => rfl
  | OnUserChange e => rfl
  | OnPermissionDenied e => rfl
  | OnIgnored => rfl

/-- C2, as stated, fails: four failed dials are followed by a fifth dial that
succeeds (the Connected event is delivered, the stream is opened), and the
next Disconnected event still ends the process with status 1 and "Unable to
connect, giving up", although one of the five attempts was a success. -/
theorem gives_up_despite_success :
    (run [.Connect (.failed "refused") none, .retry (.failed "refused") none,
          .retry (.failed "refused") none, .retry (.failed "refused") none,
          .retry (.connected aloneConnected) none]
        (fresh "server:64738" "")).isReturned = true ∧
    (run [.Connect (.failed "refused") none, .retry (.failed "refused") none,
          .retry (.failed "refused") none, .retry (.failed "refused") none,
          .retry (.connected aloneConnected) none]
        (fresh "server:64738" "")).state.IsConnected = true ∧
    (run [.Connect (.failed "refused") none, .retry (.failed "refused") none,
          .retry (.failed "refused") none, .retry (.failed "refused") none,
          .retry (.connected aloneConnected) none]
        (fresh "server:64738" "")).state.Stream = some OpenalStream.New ∧
    (run [.Connect (.failed "refused") none, .retry (.failed "refused") none,
          .retry (.failed "refused") none, .retry (.failed "refused") none,
          .retry (.connected aloneConnected) none]
        (fresh "server:64738" "")).state.ConnectAttempts = 5 ∧
    (run [.Connect (.failed "refused") none, .retry (.failed "refused") none,
          .retry (.failed "refused") none, .retry (.failed "refused") none,
          .retry (.connected aloneConnected) none, .OnDisconnect lostConnection]
        (fresh "server:64738" "")).gaveUp = true := by
  decide

/-- C2, amended: every call of `Connect` raises `ConnectAttempts` by exactly 1
within its type, whether the dial fails or succeeds; at every point of every
run of a fresh process `ConnectAttempts` is the number of dials made so far,
successful ones included, reduced to the type; and the run ends with status 1
and "Unable to connect, giving up" exactly when one of its calls, all earlier
ones having returned, arrives at `ReConnect` with five or more dials made: a
failed dial that is the fifth or a later one, or a Disconnected event once
five dials have been made. -/
theorem attempts_and_giving_up :
    (∀ (dial : DialResult) (newErr : Option String) (b : Talkiepi),
      (Connect dial newErr b).state.ConnectAttempts = (b.ConnectAttempts + 1) % uintSize) ∧
    (∀ (ops : List Op) (address channelName : String),
      (run ops (fresh address channelName)).state.ConnectAttempts
        = (run ops (fresh address channelName)).state.dials % uintSize) ∧
    (∀ (ops : List Op) (address channelName : String),
      (run ops (fresh address channelName)).gaveUp = true ↔
        ∃ pre op post b' n, ops = pre ++ op :: post ∧
          run pre (fresh address channelName) = .returned b' ∧
          dialsAtReConnect op b' = some n ∧ 5 ≤ n % uintSize) := by
  refine ⟨fun dial newErr b => congrArg Prod.fst (Connect_counters dial newErr b),
    fun ops address channelName => run_attempts_eq_dials ops _ rfl, ?_⟩
  intro ops address channelName
  rw [run_gaveUp]
  constructor
  · rintro ⟨pre, op, post, b', n, hops, hrun, hr, hn⟩
    have hinv := run_attempts_eq_dials pre (fresh address channelName) rfl
    rw [hrun] at hinv
    rw [reaches_of_dials op b' hinv] at hr
    cases hd : dialsAtReConnect op b' with
    | none => simp [hd] at hr
    | some m =>
      simp only [hd, Option.map_some', Option.some.injEq] at hr
      exact ⟨pre, op, post, b', m, hops, hrun, hd, by rw [hr]; exact hn⟩
  · rintro ⟨pre, op, post, b', m, hops, hrun, hd, hm⟩
    have hinv := run_attempts_eq_dials pre (fresh address channelName) rfl
    rw [hrun] at hinv
    exact ⟨pre, op, post, b', m % uintSize, hops, hrun,
      by rw [reaches_of_dials op b' hinv, hd]; rfl, hm⟩

/-! ## The audio stream across a disconnect -/

theorem ReConnect_stream (b : Talkiepi) : (ReConnect b).state.Stream = b.Stream := by
  unfold ReConnect
  cases b.Client <;> simp only [] <;> split <;> simp [Outcome.state, eprintf]

theorem ReConnect_client (b : Talkiepi) :
    (ReConnect b).state.Client = b.Client.map GumbleClient.Disconnect := by
  by_cases h : b.ConnectAttempts < 5 <;> cases hc : b.Client <;>
    simp [ReConnect, hc, h, Outcome.state, eprintf]

theorem ReConnect_connected (b : Talkiepi) :
    (ReConnect b).state.IsConnected = b.IsConnected := by
  by_cases h : b.ConnectAttempts < 5 <;> cases hc : b.Client <;>
    simp [ReConnect, hc, h, Outcome.state, eprintf]

theorem OnDisconnect_stream (e : DisconnectEvent) (b : Talkiepi) :
    (OnDisconnect e b).state.Stream = b.Stream := by
  rw [OnDisconnect, ReConnect_stream]
  cases ht : e.Typ <;> simp [OnDisconnect.body, ht, LEDOff, printf]

theorem OnDisconnect_connected (e : DisconnectEvent) (b : Talkiepi) :
    (OnDisconnect e b).state.IsConnected = false := by
  rw [OnDisconnect, ReConnect_connected]
  cases ht : e.Typ <;> simp [OnDisconnect.body, ht, LEDOff, printf]

theorem OpenStream_stream (newErr : Option String) (b b' : Talkiepi)
    (h : OpenStream newErr b = .returned b') : b'.Stream = some OpenalStream.New := by
  by_cases hl : b.ALSOFT_LOGLEVEL = "" <;> cases hc : b.Client <;> cases newErr <;>
    simp [OpenStream, hl, hc] at h <;> subst h <;> rfl

theorem ChangeChannel_stream (name : String) (b : Talkiepi) :
    (ChangeChannel name b).state.Stream = b.Stream := by
  unfold ChangeChannel
  cases b.Client with
  | none => rfl
  | some c => cases hf : c.Self.Channel.Find name <;> simp [hf, Outcome.state, printf]

theorem OnConnect_stream (e : ConnectEvent) (b : Talkiepi) :
    (OnConnect e b).state.Stream = b.Stream := by
  unfold OnConnect
  cases e.WelcomeMessage <;> simp only [] <;> split <;>
    first
      | (rw [ChangeChannel_stream]; simp [printf, LEDOn])
      | simp [Outcome.state, printf, LEDOn]

theorem exec_stream (op : Op) (b b' : Talkiepi) (h : exec op b = .returned b') :
    b'.Stream = b.Stream ∨ b'.Stream = some OpenalStream.New ∨
      ∃ s, b.Stream = some s ∧
        (b'.Stream = some s.StartSource ∨ b'.Stream = some s.StopSource) := by
  have hst : (exec op b).state = b' := by rw [h]; rfl
  cases op with
  | Connect d n =>
    cases d with
    | connected e =>
      simp only [exec, Connect] at h
      cases hx : OnConnect e (Connect.dial b) with
      | returned b1 =>
        simp only [hx, Outcome.bind, Connect.resume] at h
        exact Or.inr (Or.inl (OpenStream_stream n _ b' h))
      | exited status b1 => simp [hx, Outcome.bind] at h
      | nilDeref b1 => simp [hx, Outcome.bind] at h
    | failed err =>
      left
      rw [← hst]
      simp [exec, Connect, Connect.resume, ReConnect_stream, printf, Connect.dial]
  | ConnectDial =>
    left
    rw [← hst]
    rfl
  | ConnectResume d n =>
    cases d with
    | none => exact Or.inr (Or.inl (OpenStream_stream n _ b' h))
    | some err =>
      left
      rw [← hst]
      simp [exec, Connect.resume, ReConnect_stream, printf]
  | retry d n =>
    cases ht : b.timers with
    | nil =>
      left
      simp only [exec, retryGoroutine, ht, Outcome.returned.injEq] at h
      rw [h]
    | cons delay pending =>
      cases d with
      | connected e =>
        simp only [exec, retryGoroutine, ht, Connect] at h
        cases hx : OnConnect e
            (Connect.dial { b with timers := pending, elapsed := b.elapsed ++ [delay] }) with
        | returned b1 =>
          simp only [hx, Outcome.bind, Connect.resume] at h
          exact Or.inr (Or.inl (OpenStream_stream n _ b' h))
        | exited status b1 => simp [hx, Outcome.bind] at h
        | nilDeref b1 => simp [hx, Outcome.bind] at h
      | failed err =>
        left
        rw [← hst]
        simp [exec, retryGoroutine, ht, Connect, Connect.resume, ReConnect_stream, printf,
          Connect.dial]
  | ReConnect =>
    left
    rw [← hst]
    exact ReConnect_stream b
  | OpenStream n => exact Or.inr (Or.inl (OpenStream_stream n _ b' h))
  | ResetStream n =>
    cases hs : b.Stream with
    | none => simp [exec, ResetStream, hs] at h
    | some stream =>
      simp only [exec, ResetStream, hs] at h
      exact Or.inr (Or.inl (OpenStream_stream n _ b' h))
  | TransmitStart =>
    cases hc : b.IsConnected <;> cases hs : b.Stream <;>
      simp [exec, TransmitStart, hc, hs, LEDOn] at h <;> subst h <;> simp [hs]
  | TransmitStop =>
    cases hc : b.IsConnected <;> cases hs : b.Stream <;>
      simp [exec, TransmitStop, hc, hs, LEDOff] at h <;> subst h <;> simp [hs]
  | OnConnect e =>
    left
    rw [← hst]
    exact OnConnect_stream e b
  | OnDisconnect e =>
    left
    rw [← hst]
    exact OnDisconnect_stream e b
  | OnTextMessage e =>
    left
    cases hs : e.Sender <;> simp [exec, OnTextMessage, hs] at h
    subst h
    rfl
  | OnUserChange e =>
    left
    simp only [exec, OnUserChange, Outcome.returned.injEq] at h
    subst h
    split <;> rfl
  | OnPermissionDenied e =>
    left
    simp only [exec, OnPermissionDenied, Outcome.returned.injEq] at h
    subst h
    rfl
  | OnIgnored =>
    left
    simp only [exec, OnIgnored, Outcome.returned.injEq] at h
    rw [h]

theorem exec_stream_live (op : Op) (b b' : Talkiepi) (h : exec op b = .returned b')
    (hb : ∀ s, b.Stream = some s → s.destroyed = false) :
    ∀ s, b'.Stream = some s → s.destroyed = false := by
  intro s hs
  rcases exec_stream op b b' h with h1 | h1 | ⟨s0, h0, h1 | h1⟩
  · exact hb s (by rw [← h1]; exact hs)
  · rw [h1] at hs
    cases hs
    rfl
  · rw [h1] at hs
    cases hs
    exact hb s0 h0
  · rw [h1] at hs
    cases hs
    exact hb s0 h0

theorem run_stream_live (ops : List Op) : ∀ b b' : Talkiepi,
    run ops b = .returned b' → (∀ s, b.Stream = some s → s.destroyed = false) →
    ∀ s, b'.Stream = some s → s.destroyed = false := by
  induction ops with
  | nil =>
    intro b b' h hb
    simp only [run, Outcome.returned.injEq] at h
    subst h
    exact hb
  | cons op rest ih =>
    intro b b' h hb
    cases hx : exec op b with
    | returned b1 =>
      simp only [run, hx, Outcome.bind] at h
      exact ih b1 b' h (exec_stream_live op b b1 hx hb)
    | exited status b1 => simp [run, hx, Outcome.bind] at h
    | nilDeref b1 => simp [run, hx, Outcome.bind] at h

/-- C5, as stated, fails: the dial succeeds, the Connected event arrives, the
stream is opened, and after the Disconnected event the client is not connected
while its stream is still set and not destroyed. -/
theorem stream_open_after_disconnect :
    (run [.ConnectDial, .OnConnect aloneConnected, .ConnectResume none none,
          .OnDisconnect lostConnection] (fresh "server:64738" "")).isReturned = true ∧
    (run [.ConnectDial, .OnConnect aloneConnected, .ConnectResume none none,
          .OnDisconnect lostConnection] (fresh "server:64738" "")).state.IsConnected = false ∧
    (run [.ConnectDial, .OnConnect aloneConnected, .ConnectResume none none,
          .OnDisconnect lostConnection] (fresh "server:64738" "")).state.Stream
      = some { destroyed := false, sourceStarted := false } := by
  decide

/-- C5, amended: in every state that a fresh process reaches through calls into
the client, a stream that is set is not a destroyed one; no call that returns
clears a stream that was set; `OnDisconnect` sets `IsConnected` to false and
leaves `Stream` as it was, and so does `ReConnect`, whose teardown is
`Disconnect` on the `Client` handle when there is one. -/
theorem stream_outlives_session (ops : List Op) (address channelName : String)
    (b : Talkiepi) (h : run ops (fresh address channelName) = .returned b) :
    (∀ s, b.Stream = some s → s.destroyed = false) ∧
    (∀ (op : Op) (b' : Talkiepi), exec op b = .returned b' →
      b.Stream.isSome = true → b'.Stream.isSome = true) ∧
    (∀ e : DisconnectEvent, (OnDisconnect e b).state.Stream = b.Stream ∧
      (OnDisconnect e b).state.IsConnected = false) ∧
    (ReConnect b).state.Stream = b.Stream ∧
    (ReConnect b).state.Client = b.Client.map GumbleClient.Disconnect := by
  refine ⟨run_stream_live ops _ b h (by simp [fresh]), ?_,
    fun e => ⟨OnDisconnect_stream e b, OnDisconnect_connected e b⟩,
    ReConnect_stream b, ReConnect_client b⟩
  intro op b' hx hs
  rcases exec_stream op b b' hx with h1 | h1 | ⟨s0, _, h1 | h1⟩
  · rw [h1]; exact hs
  · rw [h1]; rfl
  · rw [h1]; rfl
  · rw [h1]; rfl

/-- C5 amended, at the state of a connected client whose stream is open. -/
theorem stream_outlives_session_witness :
    run [.ConnectDial, .OnConnect aloneConnected, .ConnectResume none none]
        (fresh "server:64738" "")
      = .returned (run [.ConnectDial, .OnConnect aloneConnected, .ConnectResume none none]
          (fresh "server:64738" "")).state ∧
    (OnDisconnect lostConnection
        (run [.ConnectDial, .OnConnect aloneConnected, .ConnectResume none none]
          (fresh "server:64738" "")).state).state.Stream
      = some OpenalStream.New :=
  ⟨by decide,
   ((stream_outlives_session
      [.ConnectDial, .OnConnect aloneConnected, .ConnectResume none none]
      "server:64738" ""
      (run [.ConnectDial, .OnConnect aloneConnected, .ConnectResume none none]
        (fresh "server:64738" "")).state (by decide)).2.2.1 lostConnection).1.trans
    (by decide)⟩

/-! ## The transmitting flag, the stream handle and the participants indicator -/

theorem ReConnect_transmitting (b : Talkiepi) :
    (ReConnect b).state.IsTransmitting = b.IsTransmitting ∧
    (ReConnect b).state.transmitLED = b.transmitLED := by
  by_cases h : b.ConnectAttempts < 5 <;> cases hc : b.Client <;>
    simp [ReConnect, hc, h, Outcome.state, eprintf]

/-- C4 at its failing input.  A client with an open stream gets the Connected
event, starts transmitting and then gets the Disconnected event: the handler
returns with the transmitting indicator off and `IsConnected` false while
`IsTransmitting` is still true.  The same happens in the run of a whole
process, and for every state `OnDisconnect` turns the indicator off and leaves
`IsTransmitting` as it was. -/
theorem transmitting_flag_survives_disconnect :
    (run [.OnConnect aloneConnected, .TransmitStart, .OnDisconnect lostConnection]
        { fresh "server:64738" "" with Stream := some OpenalStream.New }).isReturned = true ∧
    (run [.OnConnect aloneConnected, .TransmitStart, .OnDisconnect lostConnection]
        { fresh "server:64738" "" with Stream := some OpenalStream.New }).state.IsTransmitting
      = true ∧
    (run [.OnConnect aloneConnected, .TransmitStart, .OnDisconnect lostConnection]
        { fresh "server:64738" "" with Stream := some OpenalStream.New }).state.transmitLED
      = false ∧
    (run [.OnConnect aloneConnected, .TransmitStart, .OnDisconnect lostConnection]
        { fresh "server:64738" "" with Stream := some OpenalStream.New }).state.IsConnected
      = false ∧
    (run [.ConnectDial, .OnConnect aloneConnected, .ConnectResume none none, .TransmitStart,
          .OnDisconnect lostConnection] (fresh "server:64738" "")).isReturned = true ∧
    (run [.ConnectDial, .OnConnect aloneConnected, .ConnectResume none none, .TransmitStart,
          .OnDisconnect lostConnection] (fresh "server:64738" "")).state.IsTransmitting = true ∧
    (run [.ConnectDial, .OnConnect aloneConnected, .ConnectResume none none, .TransmitStart,
          .OnDisconnect lostConnection] (fresh "server:64738" "")).state.transmitLED = false ∧
    (∀ (e : DisconnectEvent) (b : Talkiepi),
      (OnDisconnect e b).state.IsTransmitting = b.IsTransmitting ∧
      (OnDisconnect e b).state.transmitLED = false) := by
  refine ⟨by decide, by decide, by decide, by decide, by decide, by decide, by decide, ?_⟩
  intro e b
  rw [OnDisconnect, (ReConnect_transmitting _).1, (ReConnect_transmitting _).2]
  cases ht : e.Typ <;> simp [OnDisconnect.body, ht, LEDOff, printf]

/-- C10 at its failing input.  The first dial of a fresh process is under way
and the Connected event has been delivered: `IsConnected` is true and `Stream`
is still nil, since `OpenStream` runs only after the dial has returned.
`TransmitStart`, and likewise `TransmitStop`, pass the connected-guard and call
a method of the nil stream. -/
theorem connected_before_stream :
    (run [.ConnectDial, .OnConnect aloneConnected] (fresh "server:64738" "")).isReturned
      = true ∧
    (run [.ConnectDial, .OnConnect aloneConnected] (fresh "server:64738" "")).state.IsConnected
      = true ∧
    (run [.ConnectDial, .OnConnect aloneConnected] (fresh "server:64738" "")).state.Stream
      = none ∧
    (run [.ConnectDial, .OnConnect aloneConnected, .TransmitStart]
        (fresh "server:64738" "")).faulted = true ∧
    (run [.ConnectDial, .OnConnect aloneConnected, .TransmitStop]
        (fresh "server:64738" "")).faulted = true ∧
    (∀ b : Talkiepi,
      (TransmitStart { b with IsConnected := true, Stream := none }).faulted = true ∧
      (TransmitStop { b with IsConnected := true, Stream := none }).faulted = true) := by
  refine ⟨by decide, by decide, by decide, by decide, by decide, ?_⟩
  intro b
  simp [TransmitStart, TransmitStop, LEDOn, Outcome.faulted]

/-- C8 at its failing input.  The own user is alone in its channel, and a
change arrives for a user who shares another channel with one more user:
`OnUserChange` counts the users of the channel of the user in the event and
turns the participants indicator on.  For every event and state the handler
returns, the indicator is on exactly when the channel of the user in the event
holds more than one user, and the other fields of the client are as before. -/
theorem participants_follow_event_channel :
    (run [.ConnectDial, .OnConnect aloneConnected, .ConnectResume none none]
        (fresh "server:64738" "")).state.Client.map (fun c => c.Self.Channel.Users.length)
      = some 1 ∧
    (run [.ConnectDial, .OnConnect aloneConnected, .ConnectResume none none]
        (fresh "server:64738" "")).state.participantsLED = false ∧
    elsewhereChange.User.Channel.Users.length = 2 ∧
    (run [.ConnectDial, .OnConnect aloneConnected, .ConnectResume none none,
          .OnUserChange elsewhereChange] (fresh "server:64738" "")).isReturned = true ∧
    (run [.ConnectDial, .OnConnect aloneConnected, .ConnectResume none none,
          .OnUserChange elsewhereChange] (fresh "server:64738" "")).state.participantsLED
      = true ∧
    (∀ (e : UserChangeEvent) (b : Talkiepi), ∃ b', OnUserChange e b = .returned b' ∧
      b'.participantsLED = decide (1 < e.User.Channel.Users.length) ∧
      b'.IsConnected = b.IsConnected ∧ b'.IsTransmitting = b.IsTransmitting ∧
      b'.ConnectAttempts = b.ConnectAttempts ∧ b'.onlineLED = b.onlineLED ∧
      b'.transmitLED = b.transmitLED ∧ b'.Client = b.Client ∧ b'.Stream = b.Stream ∧
      b'.timers = b.timers) := by
  refine ⟨by decide, by decide, by decide, by decide, by decide, ?_⟩
  intro e b
  by_cases h : 1 < e.User.Channel.Users.length <;>
    simp [OnUserChange, h, LEDOn, LEDOff, printf]

end TalkiepiSpec
